import Mathlib

/-!
Shallow embedding of `custom_components/internet_health/__init__.py`
(Internet Health Monitor for Home Assistant).

Modelling conventions:
* Network I/O is abstracted by "environment" functions passed to each
  runner: a TCP environment `String → ℕ → Except String Unit` gives, for
  each (host, port), either a successful connect or an exception message;
  an HTTP environment `String → Except String ℕ` gives a response status
  code or an exception message; a DNS environment
  `String → Except DnsError Unit` gives, per nameserver address, a
  resolution result or the underlying resolver error.
* Python floats are modelled as ℚ.  Python's `round(x, 1)` is modelled by
  `pyRound1` (round half away from zero on ties at scale 10; see the note
  on `pyRound1`).
* Python dicts with string keys are modelled as association lists in
  insertion order; the heterogeneous `details` dict is `Details`.
* The shared mutable list `self.failed_checks` is modelled by each runner
  returning the diagnostic strings it appends; `check_all` concatenates
  them (the interleaving produced by `asyncio.gather` is not fixed by the
  source; no claim depends on the order).
* The Home Assistant state machine (`input_number` slots 1..3 used by
  `update_check_history`) is a `Hass` record: current slot values plus a
  fault schedule saying which slot reads / slot writes raise.
* `check_all`'s three-way outcome (all groups finish; `asyncio.TimeoutError`
  from the 30s deadline; any other exception) is the `RunOutcome` input.
  Wall-clock timestamps are outside the model (the `timestamp` field is
  omitted from `CheckResult`).
-/

/-- Heterogeneous `details` dict of a group result: DNS and HTTP store
`label ↦ bool`, TCP stores `label ↦ (port_N ↦ bool)`. -/
inductive Details where
  | flat : List (String × Bool) → Details
  | nested : List (String × List (String × Bool)) → Details
deriving DecidableEq

/-- The per-group dict returned by each runner: keys `success`, `details`,
`success_count`, `total_count`. -/
structure GroupResult where
  success : Bool
  details : Details
  success_count : ℕ
  total_count : ℕ
deriving DecidableEq

/-- The dict returned by `InternetHealthChecker.check_all` (minus the
wall-clock `timestamp`). -/
structure CheckResult where
  status : Bool
  confidence : ℚ
  checks : List (String × GroupResult)
  failed_reasons : List String
  passed_checks : ℕ
  total_checks : ℕ
deriving DecidableEq

/-- Underlying resolver failures that `async_dns_query` can encounter
(timeout, NXDOMAIN, connection refused, malformed response, anything else). -/
inductive DnsError where
  | timeout
  | nxdomain
  | connRefused
  | malformed
  | other (msg : String)
deriving DecidableEq

/-- Python's `str.lower()` on the ASCII labels used by the runners. -/
def strLower (s : String) : String := ⟨s.data.map Char.toLower⟩

/-- `async_dns_query`: performs the resolution (its outcome is the `res`
argument) and catches every exception, returning `False`; the underlying
error is only logged at debug level and otherwise discarded. -/
def async_dns_query (res : Except DnsError Unit) : Bool :=
  match res with
  | Except.ok _ => true
  | Except.error _ => false

/-- The fixed `(nameserver-address, label)` list of `check_dns_multi`. -/
def nameservers : List (String × String) :=
  [("8.8.8.8", "Google"), ("1.1.1.1", "Cloudflare"),
   ("9.9.9.9", "Quad9"), ("208.67.222.222", "OpenDNS")]

/-- One iteration of the `for server, name in nameservers` loop of
`check_dns_multi`: on success record `True` and bump the counter; otherwise
the loop body raises `Exception("DNS resolution failed")`, which the
`except` arm turns into the diagnostic
`"DNS (<name>) check failed: DNS resolution failed"` and a `False` record.
Accumulator: (results, success, failed_checks). -/
def dnsStep (env : String → Except DnsError Unit)
    (acc : List (String × Bool) × ℕ × List String) (p : String × String) :
    List (String × Bool) × ℕ × List String :=
  if async_dns_query (env p.1) then
    (acc.1 ++ [(strLower p.2, true)], acc.2.1 + 1, acc.2.2)
  else
    (acc.1 ++ [(strLower p.2, false)], acc.2.1,
      acc.2.2 ++ ["DNS (" ++ p.2 ++ ") check failed: DNS resolution failed"])

/-- `check_dns_multi`: loop over the four nameservers, then build the group
dict with threshold `success >= 2`.  Also returns the diagnostics appended
to `self.failed_checks`. -/
def check_dns_multi (env : String → Except DnsError Unit) :
    GroupResult × List String :=
  let r := nameservers.foldl (dnsStep env) ([], 0, [])
  ({ success := decide (2 ≤ r.2.1), details := Details.flat r.1,
     success_count := r.2.1, total_count := nameservers.length }, r.2.2)

/-- The fixed port list `self.tcp_ports`. -/
def tcp_ports : List ℕ := [80, 443]

/-- The fixed `(host, label)` target list `self.tcp_targets`. -/
def tcp_targets : List (String × String) :=
  [("google.com", "Google"), ("amazon.com", "Amazon"),
   ("cloudflare.com", "Cloudflare"), ("github.com", "GitHub"),
   ("microsoft.com", "Microsoft")]

/-- Whether one TCP connect attempt succeeds in environment `env`. -/
def tcpPass (env : String → ℕ → Except String Unit) (host : String)
    (port : ℕ) : Bool :=
  match env host port with
  | Except.ok _ => true
  | Except.error _ => false

/-- One iteration of the inner `for port in self.tcp_ports` loop of
`check_tcp_ports`.  Accumulator: (host_results, success_count,
failed_checks). -/
def tcpPortStep (env : String → ℕ → Except String Unit) (host name : String)
    (acc : List (String × Bool) × ℕ × List String) (port : ℕ) :
    List (String × Bool) × ℕ × List String :=
  match env host port with
  | Except.ok _ =>
      (acc.1 ++ [("port_" ++ toString port, true)], acc.2.1 + 1, acc.2.2)
  | Except.error e =>
      (acc.1 ++ [("port_" ++ toString port, false)], acc.2.1,
        acc.2.2 ++ ["TCP " ++ toString port ++ " to " ++ name ++ " failed: " ++ e])

/-- One iteration of the outer `for host, name in self.tcp_targets` loop:
run the inner loop with a fresh `host_results`, keep the global counter and
failure log, and record `results[name.lower()] = host_results`.
Accumulator: (results, success_count, failed_checks). -/
def tcpHostStep (env : String → ℕ → Except String Unit)
    (acc : List (String × List (String × Bool)) × ℕ × List String)
    (t : String × String) :
    List (String × List (String × Bool)) × ℕ × List String :=
  let inner := tcp_ports.foldl (tcpPortStep env t.1 t.2) ([], acc.2.1, acc.2.2)
  (acc.1 ++ [(strLower t.2, inner.1)], inner.2.1, inner.2.2)

/-- `check_tcp_ports`: nested loops over 5 targets × 2 ports, threshold
`success_count >= total_checks // 2` with
`total_checks = len(targets) * len(ports)`. -/
def check_tcp_ports (env : String → ℕ → Except String Unit) :
    GroupResult × List String :=
  let total_checks := tcp_targets.length * tcp_ports.length
  let r := tcp_targets.foldl (tcpHostStep env) ([], 0, [])
  ({ success := decide (total_checks / 2 ≤ r.2.1), details := Details.nested r.1,
     success_count := r.2.1, total_count := total_checks }, r.2.2)

/-- The fixed URL list of `check_http_connectivity`. -/
def urls : List String :=
  ["http://www.google.com", "http://www.cloudflare.com", "http://www.apple.com"]

/-- Whether one HTTP GET counts as a success: a response arrived and its
status is exactly 200. -/
def httpPass (env : String → Except String ℕ) (url : String) : Bool :=
  match env url with
  | Except.ok st => st == 200
  | Except.error _ => false

/-- One iteration of the `for url in urls` loop of `check_http_connectivity`:
a response records `status == 200` (a non-200 status records `False` but
appends nothing); an exception appends
`"HTTP check to <url> failed: <reason>"` and records `False`.
Accumulator: (results, success_count, failed_checks). -/
def httpStep (env : String → Except String ℕ)
    (acc : List (String × Bool) × ℕ × List String) (url : String) :
    List (String × Bool) × ℕ × List String :=
  match env url with
  | Except.ok st =>
      let s := st == 200
      (acc.1 ++ [(url, s)], if s then acc.2.1 + 1 else acc.2.1, acc.2.2)
  | Except.error e =>
      (acc.1 ++ [(url, false)], acc.2.1,
        acc.2.2 ++ ["HTTP check to " ++ url ++ " failed: " ++ e])

/-- `check_http_connectivity`: loop over the three URLs, threshold
`success_count >= len(urls) // 2`. -/
def check_http_connectivity (env : String → Except String ℕ) :
    GroupResult × List String :=
  let r := urls.foldl (httpStep env) ([], 0, [])
  ({ success := decide (urls.length / 2 ≤ r.2.1), details := Details.flat r.1,
     success_count := r.2.1, total_count := urls.length }, r.2.2)

/-- Python's `round(x, 1)`.  Modelled as `round (x * 10) / 10` with
Mathlib's `round` (half-up).  Python rounds floats half-to-even, but no
tie is reachable at scale 10 from the group sizes fixed in the source
(denominators 10, 3, 4 give fractional parts 0, 1/3 or 2/3 at scale 10),
so the two agree on every value the program produces. -/
def pyRound1 (x : ℚ) : ℚ := (round (x * 10) : ℤ) / 10

/-- `calculate_confidence`: walk the `weights` dict in insertion order
(tcp 0.45, http 0.35, dns 0.20); a group present in `results` whose
`success` flag is true contributes `weight * success_count / total_count`;
multiply the sum by 100 and round to one decimal.  (Python's
`.get('success_count', 0)` / `.get('total_count', 1)` defaults never fire:
every group dict built by the runners has both keys.  Python would raise
`ZeroDivisionError` on `total_count = 0`; ℚ division gives 0 there — the
runners always produce total counts 10, 3, 4.) -/
def calculate_confidence (results : List (String × GroupResult)) : ℚ :=
  let weights : List (String × ℚ) :=
    [("tcp", 45/100), ("http", 35/100), ("dns", 20/100)]
  let confidence := weights.foldl (fun conf tw =>
    match (results.find? (fun p => p.1 == tw.1)).map Prod.snd with
    | some g =>
        if g.success then
          conf + tw.2 * ((g.success_count : ℚ) / (g.total_count : ℚ))
        else conf
    | none => conf) 0
  pyRound1 (confidence * 100)

example :
    check_dns_multi (fun _ => Except.error DnsError.timeout) =
    ({ success := false,
       details := Details.flat
         [("google", false), ("cloudflare", false), ("quad9", false),
          ("opendns", false)],
       success_count := 0, total_count := 4 },
     ["DNS (Google) check failed: DNS resolution failed",
      "DNS (Cloudflare) check failed: DNS resolution failed",
      "DNS (Quad9) check failed: DNS resolution failed",
      "DNS (OpenDNS) check failed: DNS resolution failed"]) := by
  decide

example :
    (check_tcp_ports (fun _ p => if p = 80 then Except.ok () else
      Except.error "timed out")).1.success_count = 5 := by decide

example :
    calculate_confidence
      [("tcp", { success := true, details := Details.nested [],
                 success_count := 10, total_count := 10 }),
       ("http", { success := true, details := Details.flat [],
                  success_count := 3, total_count := 3 }),
       ("dns", { success := true, details := Details.flat [],
                 success_count := 4, total_count := 4 })] = 100 := by
  simp [calculate_confidence, List.find?]
  norm_num [pyRound1, round_eq]

/-- Faulty external stores are part of the model: `slots` holds the current
values of `input_number.internet_health_check_1..3` (indexed by slot
number), `readFails i` says whether reading slot `i` raises (e.g. the
entity is missing or its state is not a number), `writeFails i` whether the
`input_number.set_value` service call for slot `i` raises. -/
structure Hass where
  slots : ℕ → ℚ
  readFails : ℕ → Bool
  writeFails : ℕ → Bool

/-- `float(self.hass.states.get('input_number.internet_health_check_<i>').state)`. -/
def readSlot (h : Hass) (i : ℕ) : Except Unit ℚ :=
  if h.readFails i then Except.error () else Except.ok (h.slots i)

/-- The `input_number.set_value` service call on slot `i`; a failed call
changes nothing. -/
def writeSlot (h : Hass) (i : ℕ) (v : ℚ) : Except Unit Hass :=
  if h.writeFails i then Except.error ()
  else Except.ok { h with slots := fun j => if j = i then v else h.slots j }

/-- One iteration of the `for i in range(1, 3)` loop of
`update_check_history`: read slot `i`'s *current* value and write it into
slot `i+1`.  On an exception the partially updated store is surfaced on the
`error` side so the surrounding `except` can return it. -/
def historyShiftStep (h : Hass) (i : ℕ) : Except Hass Hass :=
  match readSlot h i with
  | Except.error _ => Except.error h
  | Except.ok old_value =>
      match writeSlot h (i + 1) old_value with
      | Except.error _ => Except.error h
      | Except.ok h2 => Except.ok h2

/-- `update_check_history`: the loop body runs for `i = 1` then `i = 2`,
then `passed_checks` is written into slot 1.  The whole body is wrapped in
`try/except`, so any slot fault stops the remaining writes but keeps the
ones already performed (no rollback) and returns normally. -/
def update_check_history (hass : Hass) (passed_checks : ℚ) : Hass :=
  match historyShiftStep hass 1 with
  | Except.error h => h
  | Except.ok h1 =>
      match historyShiftStep h1 2 with
      | Except.error h => h
      | Except.ok h2 =>
          match writeSlot h2 1 passed_checks with
          | Except.error _ => h2
          | Except.ok h3 => h3

/-- How one `check_all` run goes, seen from the orchestrator's `try`:
either `asyncio.gather` returns all three group results before the
30-second deadline (with the probe outcomes given by the three
environments), or `asyncio.wait_for` raises `asyncio.TimeoutError`, or some
other exception with message `msg` escapes. -/
inductive RunOutcome where
  | completed (tcpEnv : String → ℕ → Except String Unit)
      (httpEnv : String → Except String ℕ)
      (dnsEnv : String → Except DnsError Unit)
  | timedOut
  | crashed (msg : String)

/-- `check_all`: run the three group runners, score, count passed groups,
best-effort update history, and compute
`status = tcp['success'] and http['success'] and confidence >= 60`; the
`except asyncio.TimeoutError` and `except Exception` arms build the two
degraded results after updating history with 0.  Returns the result dict
together with the history store as left behind. -/
def check_all (run : RunOutcome) (hass : Hass) : CheckResult × Hass :=
  match run with
  | RunOutcome.completed tcpEnv httpEnv dnsEnv =>
      let tcp := check_tcp_ports tcpEnv
      let http := check_http_connectivity httpEnv
      let dns := check_dns_multi dnsEnv
      let results := [("tcp", tcp.1), ("http", http.1), ("dns", dns.1)]
      let confidence := calculate_confidence results
      let passed_checks := (results.filter (fun r => r.2.success)).length
      let hass2 := update_check_history hass (passed_checks : ℚ)
      let status := tcp.1.success && http.1.success && decide ((60 : ℚ) ≤ confidence)
      ({ status := status, confidence := confidence, checks := results,
         failed_reasons := tcp.2 ++ http.2 ++ dns.2,
         passed_checks := passed_checks, total_checks := results.length }, hass2)
  | RunOutcome.timedOut =>
      let hass2 := update_check_history hass 0
      ({ status := false, confidence := 0, checks := [],
         failed_reasons := ["System error: Health check timed out"],
         passed_checks := 0, total_checks := 3 }, hass2)
  | RunOutcome.crashed msg =>
      let hass2 := update_check_history hass 0
      ({ status := false, confidence := 0, checks := [],
         failed_reasons := ["System error: " ++ msg],
         passed_checks := 0, total_checks := 3 }, hass2)

/-!
Cost model for the `async` structure of the runners (used by the
concurrency claim).  Each probe's network wait is an abstract duration;
a `for` loop whose body `await`s one probe accumulates durations
(the next probe starts only when the previous one finished), while
`asyncio.gather` awaits its arguments jointly, so its elapsed time is the
maximum of its arguments' times.  These definitions record the await
structure of the source verbatim: every runner loops, only the orchestrator
gathers.
-/

/-- Elapsed time of `check_dns_multi` when probe `s` takes `d s`:
the loop awaits each `async_dns_query` in turn. -/
def check_dns_multi_time (d : String → ℚ) : ℚ :=
  nameservers.foldl (fun acc p => acc + d p.1) 0

/-- Elapsed time of `check_tcp_ports` when the connect to `(host, port)`
takes `d host port`: the nested loops await each connection in turn. -/
def check_tcp_ports_time (d : String → ℕ → ℚ) : ℚ :=
  tcp_targets.foldl (fun acc t => tcp_ports.foldl (fun a p => a + d t.1 p) acc) 0

/-- Elapsed time of `check_http_connectivity` when the GET of `u` takes
`d u`: the loop awaits each request in turn. -/
def check_http_connectivity_time (d : String → ℚ) : ℚ :=
  urls.foldl (fun acc u => acc + d u) 0

/-- Elapsed time of the `asyncio.gather` in `check_all`: the three group
runners are launched together and jointly awaited. -/
def check_all_groups_time (tcpTime httpTime dnsTime : ℚ) : ℚ :=
  max tcpTime (max httpTime dnsTime)

/-- Elapsed time the TCP group would take under the fan-out/fan-in
discipline the spec asserts (all probes launched concurrently, completions
awaited jointly): the maximum probe duration (0 for no probes). -/
def fanout_tcp_time (d : String → ℕ → ℚ) : ℚ :=
  tcp_targets.foldl (fun acc t => tcp_ports.foldl (fun a p => max a (d t.1 p)) acc) 0

/-- Per-group contribution to the confidence score, written from the
spec's words (§4.4): a group whose `success` flag is true contributes
`weight × success_count / total_count`, a group that failed its threshold
contributes zero.  Used to compare `calculate_confidence` against the
spec's formula. -/
def specContribution (w : ℚ) (g : GroupResult) : ℚ :=
  if g.success then w * ((g.success_count : ℚ) / (g.total_count : ℚ)) else 0

/-- Environment fixtures for concrete witnesses: everything unreachable. -/
def tcpDown : String → ℕ → Except String Unit :=
  fun _ _ => Except.error ("[Errno 110] Connection timed out")

/-- HTTP fixture: every GET raises. -/
def httpDown : String → Except String ℕ :=
  fun _ => Except.error ("Cannot connect to host")

/-- DNS fixture: every resolution times out. -/
def dnsDown : String → Except DnsError Unit :=
  fun _ => Except.error DnsError.timeout

/-- TCP fixture: port 80 connects, port 443 does not — exactly 5 of the
10 probes pass. -/
def tcpHalfUp : String → ℕ → Except String Unit :=
  fun _ p => if p = 80 then Except.ok () else Except.error ("timed out")

/-- A fault-free history store holding slots `[5, 3, 1]` (slot 1 ↦ 5,
slot 2 ↦ 3, slot 3 ↦ 1). -/
def hass531 : Hass :=
  { slots := fun i => if i = 1 then 5 else if i = 2 then 3 else if i = 3 then 1 else 0,
    readFails := fun _ => false, writeFails := fun _ => false }

/-- A history store holding `[5, 3, 1]` whose slot-2 read raises. -/
def hassReadFail2 : Hass :=
  { slots := fun i => if i = 1 then 5 else if i = 2 then 3 else if i = 3 then 1 else 0,
    readFails := fun i => decide (i = 2), writeFails := fun _ => false }

lemma dns_foldl_count (env : String → Except DnsError Unit) :
    ∀ (l : List (String × String)) (acc : List (String × Bool) × ℕ × List String),
      (l.foldl (dnsStep env) acc).2.1 =
        acc.2.1 + l.countP (fun p => async_dns_query (env p.1)) := by
  intro l
  induction l with
  | nil => intro acc; simp
  | cons p ps ih =>
      intro acc
      by_cases h : async_dns_query (env p.1) <;>
        simp [dnsStep, h, ih, List.countP_cons]; omega

lemma dns_foldl_failed_mono (env : String → Except DnsError Unit) (s : String) :
    ∀ (l : List (String × String)) (acc : List (String × Bool) × ℕ × List String),
      s ∈ acc.2.2 → s ∈ (l.foldl (dnsStep env) acc).2.2 := by
  intro l
  induction l with
  | nil => intro acc h; simpa using h
  | cons p ps ih =>
      intro acc h
      refine ih _ ?_
      by_cases hp : async_dns_query (env p.1) <;>
        simp [dnsStep, hp, List.mem_append, h]

lemma dns_foldl_failed_mem (env : String → Except DnsError Unit)
    (server name : String) (hfail : async_dns_query (env server) = false) :
    ∀ (l : List (String × String)) (acc : List (String × Bool) × ℕ × List String),
      (server, name) ∈ l →
      ("DNS (" ++ name ++ ") check failed: DNS resolution failed") ∈
        (l.foldl (dnsStep env) acc).2.2 := by
  intro l
  induction l with
  | nil => intro acc h; cases h
  | cons p ps ih =>
      intro acc hmem
      rcases List.mem_cons.1 hmem with heq | htail
      · subst heq
        refine dns_foldl_failed_mono env _ ps _ ?_
        simp [dnsStep, hfail]
      · exact ih _ htail

lemma dns_foldl_congr (env env2 : String → Except DnsError Unit)
    (h : ∀ s, async_dns_query (env s) = async_dns_query (env2 s)) :
    ∀ (l : List (String × String)) (acc : List (String × Bool) × ℕ × List String),
      l.foldl (dnsStep env) acc = l.foldl (dnsStep env2) acc := by
  intro l
  induction l with
  | nil => intro acc; rfl
  | cons p ps ih =>
      intro acc
      have hstep : dnsStep env acc p = dnsStep env2 acc p := by
        simp only [dnsStep, h p.1]
      simp only [List.foldl_cons, hstep, ih]

lemma tcp_inner_count (env : String → ℕ → Except String Unit) (host name : String) :
    ∀ (l : List ℕ) (acc : List (String × Bool) × ℕ × List String),
      (l.foldl (tcpPortStep env host name) acc).2.1 =
        acc.2.1 + l.countP (fun p => tcpPass env host p) := by
  intro l
  induction l with
  | nil => intro acc; simp
  | cons p ps ih =>
      intro acc
      cases h : env host p <;>
        simp [tcpPortStep, tcpPass, h, ih, List.countP_cons]; omega

lemma tcp_outer_count (env : String → ℕ → Except String Unit) :
    ∀ (l : List (String × String))
      (acc : List (String × List (String × Bool)) × ℕ × List String),
      (l.foldl (tcpHostStep env) acc).2.1 =
        acc.2.1 + (l.map (fun t => tcp_ports.countP (fun p => tcpPass env t.1 p))).sum := by
  intro l
  induction l with
  | nil => intro acc; simp
  | cons t ts ih =>
      intro acc
      simp [tcpHostStep, ih, tcp_inner_count env t.1 t.2]
      omega

lemma http_foldl_count (env : String → Except String ℕ) :
    ∀ (l : List String) (acc : List (String × Bool) × ℕ × List String),
      (l.foldl (httpStep env) acc).2.1 = acc.2.1 + l.countP (httpPass env) := by
  intro l
  induction l with
  | nil => intro acc; simp
  | cons u us ih =>
      intro acc
      cases h : env u with
      | ok st =>
          cases hs : (st == 200) <;>
            simp [httpStep, httpPass, h, hs, ih, List.countP_cons]; omega
      | error e =>
          simp [httpStep, httpPass, h, ih, List.countP_cons]

lemma calculate_confidence_eq (tcp http dns : GroupResult) :
    calculate_confidence [("tcp", tcp), ("http", http), ("dns", dns)] =
      pyRound1 (100 * (specContribution (45/100) tcp + specContribution (35/100) http +
        specContribution (20/100) dns)) := by
  cases htcp : tcp.success <;> cases hhttp : http.success <;> cases hdns : dns.success <;>
    (simp [calculate_confidence, List.find?, specContribution, htcp, hhttp, hdns];
     try (congr 1; ring))

lemma pyRound1_nonneg {x : ℚ} (h : 0 ≤ x) : 0 ≤ pyRound1 x := by
  have h1 : (⌊(1/2 : ℚ)⌋ : ℤ) ≤ ⌊x * 10 + 1/2⌋ := Int.floor_mono (by linarith)
  have h2 : (⌊(1/2 : ℚ)⌋ : ℤ) = 0 := by norm_num
  have h3 : (0 : ℤ) ≤ round (x * 10) := by rw [round_eq]; omega
  unfold pyRound1
  have h4 : (0 : ℚ) ≤ (round (x * 10) : ℚ) := by exact_mod_cast h3
  linarith

lemma pyRound1_le_100 {x : ℚ} (h : x ≤ 100) : pyRound1 x ≤ 100 := by
  have h1 : (⌊x * 10 + 1/2⌋ : ℤ) ≤ ⌊(1000 : ℚ) + 1/2⌋ := Int.floor_mono (by linarith)
  have h2 : (⌊(1000 : ℚ) + 1/2⌋ : ℤ) = 1000 := by norm_num
  have h3 : round (x * 10) ≤ 1000 := by rw [round_eq]; omega
  unfold pyRound1
  have h4 : ((round (x * 10) : ℤ) : ℚ) ≤ 1000 := by exact_mod_cast h3
  linarith

lemma pyRound1_100 : pyRound1 100 = 100 := by
  norm_num [pyRound1, round_eq]

lemma specContribution_nonneg {w : ℚ} (hw : 0 ≤ w) (g : GroupResult) :
    0 ≤ specContribution w g := by
  unfold specContribution
  split
  · exact mul_nonneg hw (div_nonneg (Nat.cast_nonneg _) (Nat.cast_nonneg _))
  · exact le_refl 0

lemma specContribution_le {w : ℚ} (hw : 0 ≤ w) (g : GroupResult)
    (hc : g.success_count ≤ g.total_count) : specContribution w g ≤ w := by
  unfold specContribution
  split
  · rcases Nat.eq_zero_or_pos g.total_count with h0 | hpos
    · simp [h0]
      exact hw
    · refine mul_le_of_le_one_right hw ?_
      rw [div_le_one (by exact_mod_cast hpos)]
      exact_mod_cast hc
  · exact hw

lemma specContribution_full (w : ℚ) (g : GroupResult) (hs : g.success = true)
    (hfull : g.success_count = g.total_count) (hpos : 0 < g.total_count) :
    specContribution w g = w := by
  unfold specContribution
  rw [hs]
  simp only [if_true]
  rw [hfull, div_self (by exact_mod_cast Nat.pos_iff_ne_zero.1 hpos : ((g.total_count : ℚ)) ≠ 0)]
  ring

/-- Group-result fixture: TCP full pass (10 of 10). -/
def gTcpFull : GroupResult :=
  { success := true, details := Details.nested [], success_count := 10, total_count := 10 }

/-- Group-result fixture: HTTP full pass (3 of 3). -/
def gHttpFull : GroupResult :=
  { success := true, details := Details.flat [], success_count := 3, total_count := 3 }

/-- Group-result fixture: DNS full pass (4 of 4). -/
def gDnsFull : GroupResult :=
  { success := true, details := Details.flat [], success_count := 4, total_count := 4 }

/-- Group-result fixture: DNS below threshold with one partial success
(1 of 4, `success = False`). -/
def gDnsPartial : GroupResult :=
  { success := false, details := Details.flat [], success_count := 1, total_count := 4 }

/-- Claim C1 (code evidence): `update_check_history` does NOT shift
oldest-first.  Starting from slots `[5, 3, 1]` with `passed_checks = 2` the
loop copies slot 1 into slot 2 first, then reads the already-overwritten
slot 2, so the store ends as `[2, 5, 5]` — slot 3 does not receive slot 2's
original value 3. -/
theorem update_check_history_clobbers_slot2 :
    ((update_check_history hass531 2).slots 1 = 2 ∧
     (update_check_history hass531 2).slots 2 = 5 ∧
     (update_check_history hass531 2).slots 3 = 5) ∧
    ¬ ((update_check_history hass531 2).slots 3 = 3) := by
  refine ⟨⟨?_, ?_, ?_⟩, ?_⟩ <;>
    norm_num [update_check_history, historyShiftStep, readSlot, writeSlot, hass531]

/-- Claim C2: on every completed run the returned `status` equals
`tcp.success AND http.success AND confidence >= 60`; the comparison is
strict at the boundary (any confidence below 60 forces `status = false`),
and the DNS group's success flag enters only through the confidence value
(two completed runs differing only in the DNS environment but with equal
confidence have equal status). -/
theorem check_all_status_formula (tcpEnv : String → ℕ → Except String Unit)
    (httpEnv : String → Except String ℕ) (dnsEnv : String → Except DnsError Unit)
    (hass : Hass) :
    ((check_all (RunOutcome.completed tcpEnv httpEnv dnsEnv) hass).1.status =
      ((check_tcp_ports tcpEnv).1.success && (check_http_connectivity httpEnv).1.success &&
        decide ((60 : ℚ) ≤ (check_all (RunOutcome.completed tcpEnv httpEnv dnsEnv) hass).1.confidence))) ∧
    ((check_all (RunOutcome.completed tcpEnv httpEnv dnsEnv) hass).1.confidence < 60 →
      (check_all (RunOutcome.completed tcpEnv httpEnv dnsEnv) hass).1.status = false) ∧
    (∀ dnsEnv2 : String → Except DnsError Unit,
      (check_all (RunOutcome.completed tcpEnv httpEnv dnsEnv2) hass).1.confidence =
        (check_all (RunOutcome.completed tcpEnv httpEnv dnsEnv) hass).1.confidence →
      (check_all (RunOutcome.completed tcpEnv httpEnv dnsEnv2) hass).1.status =
        (check_all (RunOutcome.completed tcpEnv httpEnv dnsEnv) hass).1.status) := by
  refine ⟨rfl, ?_, ?_⟩
  · intro h
    have h1 : (check_all (RunOutcome.completed tcpEnv httpEnv dnsEnv) hass).1.status =
        ((check_tcp_ports tcpEnv).1.success && (check_http_connectivity httpEnv).1.success &&
          decide ((60 : ℚ) ≤ (check_all (RunOutcome.completed tcpEnv httpEnv dnsEnv) hass).1.confidence)) := rfl
    rw [h1, decide_eq_false (not_le.2 h), Bool.and_false]
  · intro dnsEnv2 hc
    have h1 : (check_all (RunOutcome.completed tcpEnv httpEnv dnsEnv) hass).1.status =
        ((check_tcp_ports tcpEnv).1.success && (check_http_connectivity httpEnv).1.success &&
          decide ((60 : ℚ) ≤ (check_all (RunOutcome.completed tcpEnv httpEnv dnsEnv) hass).1.confidence)) := rfl
    have h2 : (check_all (RunOutcome.completed tcpEnv httpEnv dnsEnv2) hass).1.status =
        ((check_tcp_ports tcpEnv).1.success && (check_http_connectivity httpEnv).1.success &&
          decide ((60 : ℚ) ≤ (check_all (RunOutcome.completed tcpEnv httpEnv dnsEnv2) hass).1.confidence)) := rfl
    rw [h1, h2, hc]

/-- Witness for C2: with every probe failing, the run's confidence is below
60 and the theorem yields `status = false`. -/
theorem check_all_status_formula_witness :
    (check_all (RunOutcome.completed tcpDown httpDown dnsDown) hass531).1.confidence < 60 ∧
    (check_all (RunOutcome.completed tcpDown httpDown dnsDown) hass531).1.status = false := by
  have he : (check_all (RunOutcome.completed tcpDown httpDown dnsDown) hass531).1.confidence =
      calculate_confidence [("tcp", (check_tcp_ports tcpDown).1),
        ("http", (check_http_connectivity httpDown).1),
        ("dns", (check_dns_multi dnsDown).1)] := rfl
  have h1 : (check_tcp_ports tcpDown).1.success = false := by decide
  have h2 : (check_http_connectivity httpDown).1.success = false := by decide
  have h3 : (check_dns_multi dnsDown).1.success = false := by decide
  have hc : (check_all (RunOutcome.completed tcpDown httpDown dnsDown) hass531).1.confidence < 60 := by
    rw [he, calculate_confidence_eq]
    simp [specContribution, h1, h2, h3]
    norm_num [pyRound1, round_eq]
  exact ⟨hc, (check_all_status_formula tcpDown httpDown dnsDown hass531).2.1 hc⟩

/-- Claim C3: the scorer returns
`round(100 * Σ_g (weight_g * success_count_g / total_count_g if g.success else 0), 1)`
with weights tcp 0.45, http 0.35, dns 0.20, and a group whose success flag
is false contributes exactly zero even with a positive `success_count`. -/
theorem calculate_confidence_matches_spec (tcp http dns : GroupResult) :
    (calculate_confidence [("tcp", tcp), ("http", http), ("dns", dns)] =
      pyRound1 (100 * (specContribution (45/100) tcp + specContribution (35/100) http +
        specContribution (20/100) dns))) ∧
    (dns.success = false →
      calculate_confidence [("tcp", tcp), ("http", http), ("dns", dns)] =
        pyRound1 (100 * (specContribution (45/100) tcp + specContribution (35/100) http))) := by
  refine ⟨calculate_confidence_eq tcp http dns, ?_⟩
  intro h
  rw [calculate_confidence_eq]
  have hz : specContribution (20/100) dns = 0 := by simp [specContribution, h]
  rw [hz, add_zero]

/-- Witness for C3: DNS with 1 of 4 successes is below threshold
(`success = False`) and drops out of the sum entirely. -/
theorem calculate_confidence_matches_spec_witness :
    calculate_confidence [("tcp", gTcpFull), ("http", gHttpFull), ("dns", gDnsPartial)] =
      pyRound1 (100 * (specContribution (45/100) gTcpFull + specContribution (35/100) gHttpFull)) :=
  (calculate_confidence_matches_spec gTcpFull gHttpFull gDnsPartial).2 rfl

/-- Claim C4: every group's success flag is its threshold applied with `>=`
to the number of passing probes: DNS passes iff at least 2 of its 4 probes
pass, TCP iff at least 5 of its 10 (`total_count // 2` with
`total_count = 10`), HTTP iff at least 1 of its 3; TCP with exactly 5
successes yields `success = true`. -/
theorem group_thresholds (tcpEnv : String → ℕ → Except String Unit)
    (httpEnv : String → Except String ℕ) (dnsEnv : String → Except DnsError Unit) :
    ((check_dns_multi dnsEnv).1.success =
      decide (2 ≤ (check_dns_multi dnsEnv).1.success_count)) ∧
    ((check_dns_multi dnsEnv).1.success_count =
      nameservers.countP (fun p => async_dns_query (dnsEnv p.1))) ∧
    ((check_dns_multi dnsEnv).1.total_count = 4) ∧
    ((check_tcp_ports tcpEnv).1.success =
      decide (5 ≤ (check_tcp_ports tcpEnv).1.success_count)) ∧
    ((check_tcp_ports tcpEnv).1.success_count =
      (tcp_targets.map (fun t => tcp_ports.countP (fun p => tcpPass tcpEnv t.1 p))).sum) ∧
    ((check_tcp_ports tcpEnv).1.total_count = 10) ∧
    ((check_http_connectivity httpEnv).1.success =
      decide (1 ≤ (check_http_connectivity httpEnv).1.success_count)) ∧
    ((check_http_connectivity httpEnv).1.success_count = urls.countP (httpPass httpEnv)) ∧
    ((check_http_connectivity httpEnv).1.total_count = 3) ∧
    ((check_tcp_ports tcpEnv).1.success_count = 5 →
      (check_tcp_ports tcpEnv).1.success = true) := by
  have hdns : (check_dns_multi dnsEnv).1.success_count =
      nameservers.countP (fun p => async_dns_query (dnsEnv p.1)) := by
    simpa using dns_foldl_count dnsEnv nameservers ([], 0, [])
  have htcp : (check_tcp_ports tcpEnv).1.success_count =
      (tcp_targets.map (fun t => tcp_ports.countP (fun p => tcpPass tcpEnv t.1 p))).sum := by
    simpa using tcp_outer_count tcpEnv tcp_targets ([], 0, [])
  have hhttp : (check_http_connectivity httpEnv).1.success_count =
      urls.countP (httpPass httpEnv) := by
    simpa using http_foldl_count httpEnv urls ([], 0, [])
  refine ⟨rfl, hdns, rfl, rfl, htcp, rfl, rfl, hhttp, rfl, ?_⟩
  intro h5
  have hs : (check_tcp_ports tcpEnv).1.success =
      decide (5 ≤ (check_tcp_ports tcpEnv).1.success_count) := rfl
  rw [hs, h5]
  rfl

/-- Witness for C4: the fixture where exactly port 80 connects gives the
TCP group exactly 5 of 10 successes and `success = true`. -/
theorem group_thresholds_witness :
    (check_tcp_ports tcpHalfUp).1.success_count = 5 ∧
    (check_tcp_ports tcpHalfUp).1.success = true :=
  ⟨by decide,
   (group_thresholds tcpHalfUp httpDown dnsDown).2.2.2.2.2.2.2.2.2 (by decide)⟩

/-- Claim C5: when the 30-second deadline fires, `check_all` returns
`status = False`, `confidence = 0`, an empty checks mapping, exactly the
one failure reason `"System error: Health check timed out"`, and the
history store has been updated with 0. -/
theorem check_all_timeout_path (hass : Hass) :
    (check_all RunOutcome.timedOut hass).1.status = false ∧
    (check_all RunOutcome.timedOut hass).1.confidence = 0 ∧
    (check_all RunOutcome.timedOut hass).1.checks = [] ∧
    (check_all RunOutcome.timedOut hass).1.failed_reasons =
      ["System error: Health check timed out"] ∧
    ((check_all RunOutcome.timedOut hass).1.failed_reasons).length = 1 ∧
    (check_all RunOutcome.timedOut hass).2 = update_check_history hass 0 :=
  ⟨rfl, rfl, rfl, rfl, rfl, rfl⟩

/-- Claim C6: `check_all` is total over every modelled fault (probe, group,
timeout, history-store, unexpected crash) — it always returns a structurally
complete `CheckResult` (here witnessed by `total_checks = 3` on every path);
on an unexpected error with message `msg` it returns `status = False`,
`confidence = 0` and the failure reason `"System error: " ++ msg` after
updating history with 0. -/
theorem check_all_crash_path_and_totality (msg : String) (hass : Hass) :
    (∀ (run : RunOutcome) (h2 : Hass), (check_all run h2).1.total_checks = 3) ∧
    (check_all (RunOutcome.crashed msg) hass).1.status = false ∧
    (check_all (RunOutcome.crashed msg) hass).1.confidence = 0 ∧
    (check_all (RunOutcome.crashed msg) hass).1.checks = [] ∧
    (check_all (RunOutcome.crashed msg) hass).1.failed_reasons =
      ["System error: " ++ msg] ∧
    (check_all (RunOutcome.crashed msg) hass).2 = update_check_history hass 0 := by
  refine ⟨?_, rfl, rfl, rfl, rfl, rfl⟩
  intro run h2
  cases run <;> rfl

/-- Claim C7: for any triple of group results with
`success_count ≤ total_count` and positive `total_count`, the confidence is
in `[0, 100]`; the weights sum to 1, so a full pass of all three groups
scores exactly 100. -/
theorem confidence_in_range (tcp http dns : GroupResult)
    (htc : tcp.success_count ≤ tcp.total_count) (htp : 0 < tcp.total_count)
    (hhc : http.success_count ≤ http.total_count) (hhp : 0 < http.total_count)
    (hdc : dns.success_count ≤ dns.total_count) (hdp : 0 < dns.total_count) :
    (0 ≤ calculate_confidence [("tcp", tcp), ("http", http), ("dns", dns)] ∧
     calculate_confidence [("tcp", tcp), ("http", http), ("dns", dns)] ≤ 100) ∧
    ((45 : ℚ)/100 + 35/100 + 20/100 = 1) ∧
    (tcp.success = true → http.success = true → dns.success = true →
     tcp.success_count = tcp.total_count → http.success_count = http.total_count →
     dns.success_count = dns.total_count →
     calculate_confidence [("tcp", tcp), ("http", http), ("dns", dns)] = 100) := by
  have ht1 : 0 ≤ specContribution (45/100) tcp :=
    specContribution_nonneg (by norm_num) tcp
  have hh1 : 0 ≤ specContribution (35/100) http :=
    specContribution_nonneg (by norm_num) http
  have hd1 : 0 ≤ specContribution (20/100) dns :=
    specContribution_nonneg (by norm_num) dns
  have ht2 : specContribution (45/100) tcp ≤ 45/100 :=
    specContribution_le (by norm_num) tcp htc
  have hh2 : specContribution (35/100) http ≤ 35/100 :=
    specContribution_le (by norm_num) http hhc
  have hd2 : specContribution (20/100) dns ≤ 20/100 :=
    specContribution_le (by norm_num) dns hdc
  rw [calculate_confidence_eq]
  refine ⟨⟨pyRound1_nonneg (by linarith), pyRound1_le_100 (by linarith)⟩, by norm_num, ?_⟩
  intro hs1 hs2 hs3 hf1 hf2 hf3
  rw [specContribution_full (45/100) tcp hs1 hf1 htp,
    specContribution_full (35/100) http hs2 hf2 hhp,
    specContribution_full (20/100) dns hs3 hf3 hdp]
  have : (100 : ℚ) * (45/100 + 35/100 + 20/100) = 100 := by norm_num
  rw [this, pyRound1_100]

/-- Witness for C7: a full pass of all three groups scores 100, which lies
in the asserted range. -/
theorem confidence_in_range_witness :
    0 ≤ calculate_confidence [("tcp", gTcpFull), ("http", gHttpFull), ("dns", gDnsFull)] ∧
    calculate_confidence [("tcp", gTcpFull), ("http", gHttpFull), ("dns", gDnsFull)] = 100 :=
  ⟨(confidence_in_range gTcpFull gHttpFull gDnsFull (by decide) (by decide) (by decide)
      (by decide) (by decide) (by decide)).1.1,
   (confidence_in_range gTcpFull gHttpFull gDnsFull (by decide) (by decide) (by decide)
      (by decide) (by decide) (by decide)).2.2 rfl rfl rfl rfl rfl rfl⟩

/-- Claim C8 counterexample: the TCP group runner is NOT fan-out/fan-in.
With every probe taking 1 time unit, the source's sequential `for`/`await`
structure takes 10 units, whereas jointly awaited concurrent probes would
take 1; the two disagree. -/
theorem tcp_group_not_fanout :
    check_tcp_ports_time (fun _ _ => 1) = 10 ∧
    fanout_tcp_time (fun _ _ => 1) = 1 ∧
    check_tcp_ports_time (fun _ _ => 1) ≠ fanout_tcp_time (fun _ _ => 1) := by
  have h1 : check_tcp_ports_time (fun _ _ => 1) = 10 := by
    norm_num [check_tcp_ports_time, tcp_targets, tcp_ports]
  have h2 : fanout_tcp_time (fun _ _ => 1) = 1 := by
    norm_num [fanout_tcp_time, tcp_targets, tcp_ports]
  exact ⟨h1, h2, by rw [h1, h2]; norm_num⟩

/-- Claim C8 amended: within each group runner the probes run sequentially
(the group's elapsed time is the SUM of its probe durations — for TCP the
sum over all 10 host/port probes), while the three group runners themselves
are launched concurrently and jointly awaited by the orchestrator (elapsed
time of the gather is the MAX of the three group times). -/
theorem group_probes_sequential_groups_concurrent
    (d : String → ℕ → ℚ) (dh dd : String → ℚ) :
    check_tcp_ports_time d =
      (tcp_targets.map (fun t => ((tcp_ports.map (fun p => d t.1 p)).sum))).sum ∧
    check_http_connectivity_time dh = (urls.map dh).sum ∧
    check_dns_multi_time dd = (nameservers.map (fun p => dd p.1)).sum ∧
    (∀ a b c : ℚ, check_all_groups_time a b c = max a (max b c)) := by
  refine ⟨?_, ?_, ?_, fun a b c => rfl⟩
  all_goals
    simp [check_tcp_ports_time, check_http_connectivity_time, check_dns_multi_time,
      tcp_targets, tcp_ports, urls, nameservers]
  all_goals ring

/-- Claim C9: every failed DNS probe appends exactly
`"DNS (<label>) check failed: DNS resolution failed"`, whatever the
underlying resolver error was: `async_dns_query` swallows the real
exception and returns `False`, and the runner's behaviour depends on the
environment only through that boolean. -/
theorem dns_generic_diagnostic (env : String → Except DnsError Unit)
    (server name : String) (e : DnsError)
    (hmem : (server, name) ∈ nameservers) (henv : env server = Except.error e) :
    (("DNS (" ++ name ++ ") check failed: DNS resolution failed") ∈
      (check_dns_multi env).2) ∧
    async_dns_query (Except.error e) = false ∧
    (∀ env2 : String → Except DnsError Unit,
      (∀ s, async_dns_query (env s) = async_dns_query (env2 s)) →
      check_dns_multi env = check_dns_multi env2) := by
  refine ⟨?_, rfl, ?_⟩
  · have hfail : async_dns_query (env server) = false := by rw [henv]; rfl
    exact dns_foldl_failed_mem env server name hfail nameservers ([], 0, []) hmem
  · intro env2 hsame
    unfold check_dns_multi
    rw [dns_foldl_congr env env2 hsame nameservers ([], 0, [])]

/-- Witness for C9: with every resolution timing out, the Google
nameserver's generic diagnostic is in the failure log. -/
theorem dns_generic_diagnostic_witness :
    ("DNS (" ++ "Google" ++ ") check failed: DNS resolution failed") ∈
      (check_dns_multi dnsDown).2 :=
  (dns_generic_diagnostic dnsDown ("8.8.8.8") ("Google") DnsError.timeout
    (by decide) rfl).1

/-- Claim C10: the history update is not atomic — when the slot-2 read
raises after slot 2 was already overwritten, the overwrite persists (store
`[5, 3, 1]` ends as `[5, 5, 1]`, a mixture of old and shifted values), the
exception is swallowed, and the `CheckResult` returned by `check_all` never
depends on the history store at all. -/
theorem history_update_not_atomic :
    (∀ (run : RunOutcome) (h1 h2 : Hass), (check_all run h1).1 = (check_all run h2).1) ∧
    ((update_check_history hassReadFail2 2).slots 1 = 5 ∧
     (update_check_history hassReadFail2 2).slots 2 = 5 ∧
     (update_check_history hassReadFail2 2).slots 3 = 1) := by
  constructor
  · intro run h1 h2
    cases run <;> rfl
  · refine ⟨?_, ?_, ?_⟩ <;>
      norm_num [update_check_history, historyShiftStep, readSlot, writeSlot, hassReadFail2]
